import Mathlib

/-!
Verification of the Lumina study-timer state machine
(`src/lumina/src/app/timer/page.tsx`) against its specification.

The React component is embedded shallowly:

* The component's `useState` fields become the fields of `TimerState`.
  JS numbers holding whole seconds are modelled as `Int` (all arithmetic
  the code performs on them is integer arithmetic); the `customMinutes`
  text input is modelled by its `parseInt` result, `Option Int`, where
  `none` stands for an input whose `parseInt` is `NaN` (empty or
  non-numeric text).
* Each event handler (`handleStop`, `handleStart`, `handlePause`, the
  interval callback, the mode-button `onClick`) becomes a function
  `TimerState → TimerState × Option LedgerWrite`; the `Option LedgerWrite`
  is the ledger dispatch the handler makes through `handleSaveStudyTime`
  (`fetch POST /api/user/study-hours`), `none` when no write is issued.
* The timer-reset `useEffect` (lines 96-128) becomes `resetEffectOnce`.
  React runs it after a render in which a value in its dependency array
  `[mode, customMinutes, timerRunning, onBreak, ...]` changed; `settle`
  reproduces exactly that: it compares the dependency tuple before and
  after a handler and applies the effect only on change (re-applying it
  once more when the effect itself clears `customMinutes`, which is the
  only dependency the effect can change).
* The unconditional `setTimeout(() => setTimerRunning(true), 50)` at the
  end of the break-completion branch is modelled by the `restartPending`
  flag: the interval callback sets it, and the composed step fires it
  (setting `timerRunning := true`) after the reset effect has run, which
  is the order the 50 ms delay produces.
* `Math.round(x)` on a JS number is `⌊x + 1/2⌋` (`jsRound`), and
  `Math.floor(x / 3)` on an integer is floor division (`Int.fdiv`);
  committed hours are one-decimal values recorded exactly as integer
  tenths of an hour (`LedgerWrite.hoursTimes10`).

The spec's `phase` enum {Idle, Studying, OnBreak} corresponds to the
pair of booleans `(timerRunning, onBreak)` via `phase` below; the
spec's `remainingStudySeconds`, `elapsedStopwatchSeconds`,
`remainingBreakSeconds`, `initialStudyDurationSeconds` and
`preBreakStudySeconds` are `countdownTimeLeft`, `stopwatchSeconds`,
`breakTimeLeft`, `initialCountdownDuration` and `prePauseStudySeconds`.
-/

/-- The four timer modes (`useState<'pomodoro' | 'reversePomodoro' | 'stopwatch' | 'custom'>`). -/
inductive Mode
  | pomodoro
  | reversePomodoro
  | stopwatch
  | custom
deriving DecidableEq, Repr

/-- The spec's phase enum. -/
inductive Phase
  | Idle
  | Studying
  | OnBreak
deriving DecidableEq, Repr

/-- One write dispatched to the Study-Time Ledger
(`POST /api/user/study-hours` with `{date, subject, duration}`).
The date (always "today") is not tracked. The `duration` payload is
`roundedHours`, a multiple of one tenth of an hour; it is recorded here
exactly as `hoursTimes10`, so a payload of `0.4` hours is
`hoursTimes10 = 4`. -/
structure LedgerWrite where
  subject : String
  hoursTimes10 : Int
deriving DecidableEq, Repr

/-- A configuration error surfaced synchronously by `handleStart` via
`alert` (the two `alert` messages for bad custom minutes are merged). -/
inductive ConfigError
  | noSubject
  | invalidCustomTime
deriving DecidableEq, Repr

/-- The component state: one field per `useState` of `TimerPage`, plus
`restartPending`, which records that the break-completion branch has
scheduled its `setTimeout(() => setTimerRunning(true), 50)`. -/
structure TimerState where
  mode : Mode
  countdownTimeLeft : Int
  breakTimeLeft : Int
  onBreak : Bool
  timerRunning : Bool
  customMinutes : Option Int
  stopwatchSeconds : Int
  subject : String
  initialCountdownDuration : Int
  prePauseStudySeconds : Int
  restartPending : Bool
deriving DecidableEq, Repr

/-- `presets.pomodoro = 25 * 60`. -/
def presets.pomodoro : Int := 25 * 60

/-- `presets.reversePomodoro = 5 * 60`. -/
def presets.reversePomodoro : Int := 5 * 60

/-- `presets.pomodoroBreak = 5 * 60`. -/
def presets.pomodoroBreak : Int := 5 * 60

/-- `presets.reversePomodoroBreak = 25 * 60`. -/
def presets.reversePomodoroBreak : Int := 25 * 60

/-- JS `Math.round`: round half toward positive infinity. -/
def jsRound (x : ℚ) : ℤ := ⌊x + 1 / 2⌋

/-- Line 137, `Math.round((seconds / 3600) * 10)`, computed exactly over
the integers: `jsRound ((seconds : ℚ) / 3600 * 10)` equals
`⌊(seconds·10·2 + 3600) / (3600·2)⌋` (see
`roundedHoursTimes10_eq_jsRound` below). The code's `roundedHours` is
this value divided by `10`; in particular it is positive, zero or
negative exactly when this value is. -/
def roundedHoursTimes10 (seconds : Int) : Int :=
  (seconds * 10 * 2 + 3600).fdiv (3600 * 2)

/-- Lines 133-166, `handleSaveStudyTime`: skip when
`roundedHours <= 0 || !subject`, otherwise POST one ledger write. -/
def handleSaveStudyTime (subject : String) (seconds : Int) : Option LedgerWrite :=
  let tenths := roundedHoursTimes10 seconds
  if tenths ≤ 0 ∨ subject = "" then none
  else some ⟨subject, tenths⟩

/-- The expression `Math.min(parseInt(customMinutes) * 60 || 0, 180 * 60)`
(lines 113, 229, 316, 367): `parseInt` giving `NaN` (modelled `none`)
collapses to `0` through `|| 0`. -/
def customDurSeconds (cm : Option Int) : Int := min ((cm.getD 0) * 60) (180 * 60)

/-- The `nextStudyDuration` computation of the interval callback
(lines 313-316 and 364-367). -/
def nextStudyDurationFor (m : Mode) (cm : Option Int) : Int :=
  match m with
  | Mode.pomodoro => presets.pomodoro
  | Mode.reversePomodoro => presets.reversePomodoro
  | Mode.custom => customDurSeconds cm
  | Mode.stopwatch => 0

/-- The `breakDuration` chosen when a study countdown completes
(lines 348-352): fixed presets for Pomodoro / ReversePomodoro, a third
of the completed study time for Custom. (The stopwatch branch of the
callback never reaches this computation; the initializer `0` applies.) -/
def breakDurationOnCompletion (m : Mode) (actualStudySeconds : Int) : Int :=
  match m with
  | Mode.pomodoro => presets.pomodoroBreak
  | Mode.reversePomodoro => presets.reversePomodoroBreak
  | Mode.custom => actualStudySeconds.fdiv 3
  | Mode.stopwatch => 0

/-- Line 273: `Math.floor(currentSessionStudyTime / 3)`, the break
computed by `handlePause` in every mode. -/
def breakDurationOnPause (elapsed : Int) : Int := elapsed.fdiv 3

/-- Lines 264-270: the study time `handlePause` ascribes to the current
session. -/
def currentSessionStudyTime (s : TimerState) : Int :=
  if s.mode = Mode.stopwatch then s.stopwatchSeconds
  else s.initialCountdownDuration - s.countdownTimeLeft

/-- The duration the reset effect computes for a mode
(`durationToSet`, lines 106-119; `0` for stopwatch). -/
def initialDurationFor (m : Mode) (cm : Option Int) : Int :=
  match m with
  | Mode.pomodoro => presets.pomodoro
  | Mode.reversePomodoro => presets.reversePomodoro
  | Mode.custom => customDurSeconds cm
  | Mode.stopwatch => 0

/-- The dependency array of the timer-reset `useEffect` (line 128),
minus the constant presets. -/
def effectDeps (s : TimerState) : Mode × Option Int × Bool × Bool :=
  (s.mode, s.customMinutes, s.timerRunning, s.onBreak)

/-- One execution of the timer-reset `useEffect` body (lines 96-127):
when neither running nor on break, re-initialize the displayed timer
from the mode, clearing an invalid custom-minutes input. -/
def resetEffectOnce (s : TimerState) : TimerState :=
  if s.timerRunning = false ∧ s.onBreak = false then
    if s.mode = Mode.stopwatch then
      { s with stopwatchSeconds := 0, countdownTimeLeft := 0,
               initialCountdownDuration := 0, prePauseStudySeconds := 0 }
    else
      let durationToSet : Int :=
        if s.mode = Mode.pomodoro then presets.pomodoro
        else if s.mode = Mode.reversePomodoro then presets.reversePomodoro
        else customDurSeconds s.customMinutes
      let s1 := if s.mode = Mode.custom ∧ durationToSet ≤ 0 ∧ s.customMinutes ≠ none
                then { s with customMinutes := none } else s
      { s1 with countdownTimeLeft := durationToSet,
                initialCountdownDuration := durationToSet,
                stopwatchSeconds := 0, prePauseStudySeconds := 0 }
  else s

/-- React's effect semantics for the reset effect: after a handler takes
the state from `old` to `new`, the effect body runs iff a dependency
changed; the body can change only the `customMinutes` dependency
(clearing an invalid input), in which case it runs once more and is
then at a fixed point. -/
def settle (old new : TimerState) : TimerState :=
  if effectDeps old = effectDeps new then new
  else
    let s1 := resetEffectOnce new
    if effectDeps s1 = effectDeps new then s1 else resetEffectOnce s1

/-- Lines 179-186: the elapsed study time `handleStop` ascribes to the
session (`Math.max(0, initialCountdownDuration - countdownTimeLeft)`
for countdown modes with a positive initial duration). -/
def stopSecondsStudied (s : TimerState) : Int :=
  if s.mode = Mode.stopwatch then s.stopwatchSeconds
  else if s.initialCountdownDuration > 0 then
    max 0 (s.initialCountdownDuration - s.countdownTimeLeft)
  else 0

/-- Lines 170-196, `handleStop`: cancel ticking, compute the elapsed
study time (from fields the flag updates do not touch), dispatch it to
the ledger, clear the counters. -/
def handleStop (s : TimerState) : TimerState × Option LedgerWrite :=
  let w := handleSaveStudyTime s.subject (stopSecondsStudied s)
  ({ s with timerRunning := false, onBreak := false,
            countdownTimeLeft := 0, stopwatchSeconds := 0, prePauseStudySeconds := 0 }, w)

/-- `handleStop` followed by the reset effect. -/
def stopStep (s : TimerState) : TimerState × Option LedgerWrite :=
  let (s1, w) := handleStop s
  (settle s s1, w)

/-- Lines 200-249, `handleStart`: validate subject and custom minutes,
re-initialize a spent countdown, then begin ticking. -/
def handleStart (s : TimerState) : TimerState × Option ConfigError :=
  if s.subject = "" then (s, some ConfigError.noSubject)
  else if s.mode = Mode.custom ∧ (s.customMinutes = none ∨ s.customMinutes.getD 0 ≤ 0) then
    (s, some ConfigError.invalidCustomTime)
  else if s.timerRunning then (s, none)
  else if s.mode = Mode.pomodoro then
    let s1 := if s.countdownTimeLeft = 0 ∨ s.initialCountdownDuration = 0 then
                { s with initialCountdownDuration := presets.pomodoro,
                         countdownTimeLeft := presets.pomodoro }
              else s
    ({ s1 with onBreak := false, timerRunning := true }, none)
  else if s.mode = Mode.reversePomodoro then
    let s1 := if s.countdownTimeLeft = 0 ∨ s.initialCountdownDuration = 0 then
                { s with initialCountdownDuration := presets.reversePomodoro,
                         countdownTimeLeft := presets.reversePomodoro }
              else s
    ({ s1 with onBreak := false, timerRunning := true }, none)
  else if s.mode = Mode.custom then
    let customDur := customDurSeconds s.customMinutes
    if customDur ≤ 0 then (s, some ConfigError.invalidCustomTime)
    else
      let s1 := if s.countdownTimeLeft = 0 ∨ s.initialCountdownDuration = 0 then
                  { s with initialCountdownDuration := customDur,
                           countdownTimeLeft := customDur }
                else s
      ({ s1 with onBreak := false, timerRunning := true }, none)
  else
    ({ s with initialCountdownDuration := 0, onBreak := false, timerRunning := true }, none)

/-- `handleStart` followed by the reset effect. -/
def startStep (s : TimerState) : TimerState × Option ConfigError :=
  let (s1, e) := handleStart s
  (settle s s1, e)

/-- Lines 253-287, `handlePause`: stop ticking, compute the elapsed
study time and a break of a third of it; enter the break when that is
positive, otherwise save immediately and reset. -/
def handlePause (s : TimerState) : TimerState × Option LedgerWrite :=
  if s.timerRunning = false ∨ s.onBreak = true then (s, none)
  else
    let s := { s with timerRunning := false }
    let elapsed := currentSessionStudyTime s
    let breakDuration := breakDurationOnPause elapsed
    if breakDuration > 0 then
      ({ s with breakTimeLeft := breakDuration, onBreak := true,
                prePauseStudySeconds := elapsed }, none)
    else
      let w := handleSaveStudyTime s.subject elapsed
      ({ s with countdownTimeLeft := 0, stopwatchSeconds := 0,
                prePauseStudySeconds := 0, onBreak := false }, w)

/-- `handlePause` followed by the reset effect. -/
def pauseStep (s : TimerState) : TimerState × Option LedgerWrite :=
  let (s1, w) := handlePause s
  (settle s s1, w)

/-- Lines 300-380, the body of the 1-second interval callback: break
countdown (with commit, re-initialization and the scheduled auto
restart on completion), stopwatch increment, or study countdown (with
break scheduling, or commit and reset when the computed break is not
positive). When neither ticking loop is armed the callback does not
exist; the state is unchanged. -/
def tick (s : TimerState) : TimerState × Option LedgerWrite :=
  if s.onBreak then
    if s.breakTimeLeft ≤ 1 then
      let w := handleSaveStudyTime s.subject s.prePauseStudySeconds
      let nextStudyDuration := nextStudyDurationFor s.mode s.customMinutes
      let s1 := { s with onBreak := false, prePauseStudySeconds := 0,
                         stopwatchSeconds := 0, breakTimeLeft := 0,
                         restartPending := true }
      let s2 := if s.mode ≠ Mode.stopwatch ∧ nextStudyDuration > 0 then
                  { s1 with countdownTimeLeft := nextStudyDuration,
                            initialCountdownDuration := nextStudyDuration }
                else s1
      (s2, w)
    else ({ s with breakTimeLeft := s.breakTimeLeft - 1 }, none)
  else if s.timerRunning then
    if s.mode = Mode.stopwatch then
      ({ s with stopwatchSeconds := s.stopwatchSeconds + 1 }, none)
    else if s.countdownTimeLeft ≤ 1 then
      let actualStudyTimeCompleted := s.initialCountdownDuration
      let breakDuration := breakDurationOnCompletion s.mode actualStudyTimeCompleted
      let s1 := { s with timerRunning := false }
      if breakDuration > 0 then
        ({ s1 with breakTimeLeft := breakDuration, onBreak := true,
                   prePauseStudySeconds := actualStudyTimeCompleted,
                   countdownTimeLeft := 0 }, none)
      else
        let w := handleSaveStudyTime s.subject actualStudyTimeCompleted
        let nextStudyDuration := nextStudyDurationFor s.mode s.customMinutes
        ({ s1 with stopwatchSeconds := 0, countdownTimeLeft := nextStudyDuration,
                   initialCountdownDuration := nextStudyDuration,
                   prePauseStudySeconds := 0, onBreak := false }, w)
    else ({ s with countdownTimeLeft := s.countdownTimeLeft - 1 }, none)
  else (s, none)

/-- One observable second: the interval callback, the reset effect it
may have triggered, and, when the break-completion branch scheduled its
50 ms restart, that restart (followed again by the effect comparison,
which finds the running guard false). -/
def tickStep (s : TimerState) : TimerState × Option LedgerWrite :=
  let (s1, w) := tick s
  let s2 := settle s s1
  if s2.restartPending then
    let s3 := { s2 with restartPending := false, timerRunning := true }
    (settle s2 s3, w)
  else (s2, w)

/-- Lines 536-549, the mode button `onClick`: switch mode and reset
every timer field; the handler makes no ledger dispatch. -/
def selectMode (m : Mode) (s : TimerState) : TimerState × Option LedgerWrite :=
  ({ s with mode := m, onBreak := false, timerRunning := false,
            stopwatchSeconds := 0, countdownTimeLeft := 0,
            initialCountdownDuration := 0, prePauseStudySeconds := 0 }, none)

/-- `selectMode` followed by the reset effect. -/
def selectModeStep (m : Mode) (s : TimerState) : TimerState × Option LedgerWrite :=
  let (s1, w) := selectMode m s
  (settle s s1, w)

/-- Iterate `tickStep`, collecting every ledger write along the run. -/
def runTicks : Nat → TimerState → TimerState × List LedgerWrite
  | 0, s => (s, [])
  | n + 1, s =>
      let (s1, w) := tickStep s
      let (s2, ws) := runTicks n s1
      (s2, w.toList ++ ws)

/-- The spec's phase of a state. -/
def phase (s : TimerState) : Phase :=
  if s.onBreak then Phase.OnBreak
  else if s.timerRunning then Phase.Studying
  else Phase.Idle

/-- The integer computation `roundedHoursTimes10` is exactly the code's
`Math.round((seconds / 3600) * 10)`. -/
theorem roundedHoursTimes10_eq_jsRound (s : Int) :
    roundedHoursTimes10 s = jsRound ((s : ℚ) / 3600 * 10) := by
  unfold roundedHoursTimes10 jsRound
  have h : (s : ℚ) / 3600 * 10 + 1 / 2 = ((s * 10 * 2 + 3600 : ℤ) : ℚ) / ((7200 : ℕ) : ℚ) := by
    push_cast
    ring
  rw [h, Rat.floor_intCast_div_natCast, Int.fdiv_eq_ediv _ (by norm_num)]
  norm_num

theorem roundedHoursTimes10_pos_iff (s : Int) : 0 < roundedHoursTimes10 s ↔ 180 ≤ s := by
  unfold roundedHoursTimes10
  rw [Int.fdiv_eq_ediv _ (by norm_num)]
  omega

theorem handleSaveStudyTime_zero (subj : String) : handleSaveStudyTime subj 0 = none := by
  have h : roundedHoursTimes10 0 = 0 := by decide
  simp [handleSaveStudyTime, h]

theorem resetEffectOnce_timerRunning (s : TimerState) :
    (resetEffectOnce s).timerRunning = s.timerRunning := by
  simp only [resetEffectOnce]
  split_ifs <;> rfl

theorem resetEffectOnce_onBreak (s : TimerState) :
    (resetEffectOnce s).onBreak = s.onBreak := by
  simp only [resetEffectOnce]
  split_ifs <;> rfl

theorem resetEffectOnce_mode (s : TimerState) :
    (resetEffectOnce s).mode = s.mode := by
  simp only [resetEffectOnce]
  split_ifs <;> rfl

theorem resetEffectOnce_subject (s : TimerState) :
    (resetEffectOnce s).subject = s.subject := by
  simp only [resetEffectOnce]
  split_ifs <;> rfl

theorem resetEffectOnce_restartPending (s : TimerState) :
    (resetEffectOnce s).restartPending = s.restartPending := by
  simp only [resetEffectOnce]
  split_ifs <;> rfl

theorem settle_timerRunning (old new : TimerState) :
    (settle old new).timerRunning = new.timerRunning := by
  simp only [settle]
  split_ifs <;> simp [resetEffectOnce_timerRunning]

theorem settle_onBreak (old new : TimerState) :
    (settle old new).onBreak = new.onBreak := by
  simp only [settle]
  split_ifs <;> simp [resetEffectOnce_onBreak]

theorem settle_mode (old new : TimerState) :
    (settle old new).mode = new.mode := by
  simp only [settle]
  split_ifs <;> simp [resetEffectOnce_mode]

theorem settle_subject (old new : TimerState) :
    (settle old new).subject = new.subject := by
  simp only [settle]
  split_ifs <;> simp [resetEffectOnce_subject]

theorem settle_restartPending (old new : TimerState) :
    (settle old new).restartPending = new.restartPending := by
  simp only [settle]
  split_ifs <;> simp [resetEffectOnce_restartPending]

theorem phase_stopStep (s : TimerState) : phase (stopStep s).1 = Phase.Idle := by
  simp [stopStep, handleStop, phase, settle_onBreak, settle_timerRunning]

theorem resetEffectOnce_stopwatch (s : TimerState) (h1 : s.timerRunning = false)
    (h2 : s.onBreak = false) (h3 : s.mode = Mode.stopwatch) :
    resetEffectOnce s = { s with stopwatchSeconds := 0, countdownTimeLeft := 0,
                                 initialCountdownDuration := 0, prePauseStudySeconds := 0 } := by
  simp [resetEffectOnce, h1, h2, h3]

theorem resetEffectOnce_pomodoro (s : TimerState) (h1 : s.timerRunning = false)
    (h2 : s.onBreak = false) (h3 : s.mode = Mode.pomodoro) :
    resetEffectOnce s = { s with countdownTimeLeft := presets.pomodoro,
                                 initialCountdownDuration := presets.pomodoro,
                                 stopwatchSeconds := 0, prePauseStudySeconds := 0 } := by
  simp [resetEffectOnce, h1, h2, h3]

theorem resetEffectOnce_reversePomodoro (s : TimerState) (h1 : s.timerRunning = false)
    (h2 : s.onBreak = false) (h3 : s.mode = Mode.reversePomodoro) :
    resetEffectOnce s = { s with countdownTimeLeft := presets.reversePomodoro,
                                 initialCountdownDuration := presets.reversePomodoro,
                                 stopwatchSeconds := 0, prePauseStudySeconds := 0 } := by
  simp [resetEffectOnce, h1, h2, h3]

theorem resetEffectOnce_custom_valid (s : TimerState) (h1 : s.timerRunning = false)
    (h2 : s.onBreak = false) (h3 : s.mode = Mode.custom)
    (h4 : ¬(customDurSeconds s.customMinutes ≤ 0 ∧ s.customMinutes ≠ none)) :
    resetEffectOnce s = { s with countdownTimeLeft := customDurSeconds s.customMinutes,
                                 initialCountdownDuration := customDurSeconds s.customMinutes,
                                 stopwatchSeconds := 0, prePauseStudySeconds := 0 } := by
  simp only [resetEffectOnce, h1, h2, h3]
  split_ifs <;> simp_all

theorem resetEffectOnce_custom_invalid (s : TimerState) (h1 : s.timerRunning = false)
    (h2 : s.onBreak = false) (h3 : s.mode = Mode.custom)
    (h4 : customDurSeconds s.customMinutes ≤ 0) (h5 : s.customMinutes ≠ none) :
    resetEffectOnce s = { s with customMinutes := none,
                                 countdownTimeLeft := customDurSeconds s.customMinutes,
                                 initialCountdownDuration := customDurSeconds s.customMinutes,
                                 stopwatchSeconds := 0, prePauseStudySeconds := 0 } := by
  simp only [resetEffectOnce, h1, h2, h3]
  split_ifs <;> simp_all

theorem resetEffectOnce_customMinutes (s : TimerState) :
    (resetEffectOnce s).customMinutes =
      if s.timerRunning = false ∧ s.onBreak = false ∧ s.mode = Mode.custom ∧
         customDurSeconds s.customMinutes ≤ 0 ∧ s.customMinutes ≠ none
      then none else s.customMinutes := by
  simp only [resetEffectOnce]
  split_ifs <;> simp_all

theorem effectDeps_resetEffectOnce (s : TimerState) :
    effectDeps (resetEffectOnce s) =
      (s.mode, (resetEffectOnce s).customMinutes, s.timerRunning, s.onBreak) := by
  simp [effectDeps, resetEffectOnce_mode, resetEffectOnce_timerRunning, resetEffectOnce_onBreak]

theorem customDurSeconds_none : customDurSeconds none = 0 := by decide

theorem settle_reset_fields (old new : TimerState)
    (hdep : effectDeps old ≠ effectDeps new)
    (h1 : new.timerRunning = false) (h2 : new.onBreak = false) :
    (settle old new).countdownTimeLeft = initialDurationFor new.mode (settle old new).customMinutes ∧
    (settle old new).initialCountdownDuration = initialDurationFor new.mode (settle old new).customMinutes ∧
    (settle old new).stopwatchSeconds = 0 ∧
    (settle old new).prePauseStudySeconds = 0 ∧
    0 ≤ (settle old new).countdownTimeLeft := by
  simp only [settle, if_neg hdep]
  by_cases hcl : new.mode = Mode.custom ∧ customDurSeconds new.customMinutes ≤ 0 ∧
      new.customMinutes ≠ none
  · -- the effect clears customMinutes, so it runs a second time
    obtain ⟨hm, hd, hcm⟩ := hcl
    have hr1 := resetEffectOnce_custom_invalid new h1 h2 hm hd hcm
    have hne : ¬ effectDeps (resetEffectOnce new) = effectDeps new := by
      rw [effectDeps_resetEffectOnce, resetEffectOnce_customMinutes]
      simp [effectDeps, h1, h2, hm, hd, hcm]
      exact fun h => hcm h.symm
    rw [if_neg hne, hr1]
    have hr2 := resetEffectOnce_custom_valid
      { new with customMinutes := none,
                 countdownTimeLeft := customDurSeconds new.customMinutes,
                 initialCountdownDuration := customDurSeconds new.customMinutes,
                 stopwatchSeconds := 0, prePauseStudySeconds := 0 }
      h1 h2 hm (by simp)
    rw [hr2]
    simp [initialDurationFor, hm, customDurSeconds_none]
  · -- customMinutes is untouched, the effect is at a fixed point after one run
    have hcm : (resetEffectOnce new).customMinutes = new.customMinutes := by
      rw [resetEffectOnce_customMinutes]
      split_ifs with h
      · exact absurd ⟨h.2.2.1, h.2.2.2.1, h.2.2.2.2⟩ hcl
      · rfl
    have heq : effectDeps (resetEffectOnce new) = effectDeps new := by
      rw [effectDeps_resetEffectOnce, hcm]
      simp [effectDeps]
    rw [if_pos heq]
    rcases hm : new.mode with _ | _ | _ | _
    · rw [resetEffectOnce_pomodoro new h1 h2 hm]
      simp [initialDurationFor, hm, presets.pomodoro]
    · rw [resetEffectOnce_reversePomodoro new h1 h2 hm]
      simp [initialDurationFor, hm, presets.reversePomodoro]
    · rw [resetEffectOnce_stopwatch new h1 h2 hm]
      simp [initialDurationFor, hm]
    · have hcl2 : ¬(customDurSeconds new.customMinutes ≤ 0 ∧ new.customMinutes ≠ none) := by
        rw [hm] at hcl
        tauto
      rw [resetEffectOnce_custom_valid new h1 h2 hm hcl2]
      have hnn : 0 ≤ customDurSeconds new.customMinutes := by
        by_cases hnone : new.customMinutes = none
        · rw [hnone, customDurSeconds_none]
        · have hgt : ¬ customDurSeconds new.customMinutes ≤ 0 := fun hle => hcl2 ⟨hle, hnone⟩
          omega
      simp [initialDurationFor, hm, hnn]

theorem stopSecondsStudied_eq_zero (s : TimerState)
    (h1 : s.countdownTimeLeft = s.initialCountdownDuration) (h2 : s.stopwatchSeconds = 0) :
    stopSecondsStudied s = 0 := by
  unfold stopSecondsStudied
  split_ifs <;> simp [h1, h2]

theorem stopStep_write_none (s : TimerState) (h : stopSecondsStudied s = 0) :
    (stopStep s).2 = none := by
  simp [stopStep, handleStop, h, handleSaveStudyTime_zero]

/-- C1 (amended): when `stop()` is invoked from an active session
(Studying or OnBreak), it cancels ticking, dispatches at most one
ledger write (the handler makes a single `handleSaveStudyTime` call),
and leaves the session in the Idle phase; an immediately following
second `stop()` dispatches no ledger write, does not error, and leaves
the phase Idle. (A `stop()` from an arbitrary Idle state is however not
a no-op — see the counterexample — so the guarantee is stated from
active states, and phase-level rather than state-level equality.) -/
theorem stop_twice_from_active_is_ledger_idempotent (s : TimerState)
    (h : s.timerRunning = true ∨ s.onBreak = true) :
    phase (stopStep s).1 = Phase.Idle ∧
    (stopStep (stopStep s).1).2 = none ∧
    phase (stopStep (stopStep s).1).1 = Phase.Idle := by
  refine ⟨phase_stopStep s, ?_, phase_stopStep _⟩
  apply stopStep_write_none
  have hfst : (stopStep s).1 = settle s
      { s with timerRunning := false, onBreak := false, countdownTimeLeft := 0,
               stopwatchSeconds := 0, prePauseStudySeconds := 0 } := by
    simp [stopStep, handleStop]
  have hdep : effectDeps s ≠ effectDeps
      ({ s with timerRunning := false, onBreak := false, countdownTimeLeft := 0,
                stopwatchSeconds := 0, prePauseStudySeconds := 0 } : TimerState) := by
    rcases h with h | h <;> simp [effectDeps, h]
  have hfields := settle_reset_fields s _ hdep rfl rfl
  rw [hfst]
  exact stopSecondsStudied_eq_zero _ (hfields.1.trans hfields.2.1.symm) hfields.2.2.1

/-- A concrete mid-run Pomodoro session: 900 of the 1500 seconds
elapsed, subject "math". -/
def midRunPomodoro : TimerState :=
  ⟨Mode.pomodoro, 600, 0, false, true, none, 0, "math", 1500, 0, false⟩

/-- C1, counterexample. The state reached by stopping `midRunPomodoro`
twice is Idle, yet stopping it again commits a phantom write of 0.4
hours (the reset effect does not re-run after an idle stop — none of
its dependencies change — so `countdownTimeLeft` stays 0 while
`initialCountdownDuration` stays 1500, and the next `stop()` reads a
full elapsed interval). This falsifies both "any stop() invoked while
phase = Idle performs no ledger commit" and "leaves the Session in the
same Idle state": the second stop also changes the state. -/
theorem stop_while_idle_can_commit_phantom_write :
    phase (stopStep (stopStep midRunPomodoro).1).1 = Phase.Idle ∧
    (stopStep (stopStep (stopStep midRunPomodoro).1).1).2 =
      some ⟨"math", 4⟩ ∧
    (stopStep (stopStep midRunPomodoro).1).1 ≠ (stopStep midRunPomodoro).1 := by decide

/-- C1, witness for `stop_twice_from_active_is_ledger_idempotent` at
the concrete running session `midRunPomodoro`. -/
theorem stop_twice_from_active_is_ledger_idempotent_witness :
    phase (stopStep midRunPomodoro).1 = Phase.Idle ∧
    (stopStep (stopStep midRunPomodoro).1).2 = none ∧
    phase (stopStep (stopStep midRunPomodoro).1).1 = Phase.Idle :=
  stop_twice_from_active_is_ledger_idempotent midRunPomodoro (Or.inl rfl)

theorem resetEffectOnce_of_active (s : TimerState)
    (h : s.timerRunning = true ∨ s.onBreak = true) : resetEffectOnce s = s := by
  rcases h with h | h <;> simp [resetEffectOnce, h]

theorem settle_of_active (old new : TimerState)
    (h : new.timerRunning = true ∨ new.onBreak = true) : settle old new = new := by
  have hr := resetEffectOnce_of_active new h
  simp only [settle, hr]
  split_ifs <;> rfl

/-- C9: switching mode while the session is active (Studying or
OnBreak) cancels the ticking loop, fires no ledger commit, and resets
the Session to Idle with a freshly computed initial study duration for
the new mode (`initialDurationFor`); the stopwatch and pre-break
counters are cleared. -/
theorem selectMode_while_active_discards_and_reinitializes (s : TimerState) (m : Mode)
    (h : s.timerRunning = true ∨ s.onBreak = true) :
    (selectModeStep m s).2 = none ∧
    phase (selectModeStep m s).1 = Phase.Idle ∧
    (selectModeStep m s).1.mode = m ∧
    (selectModeStep m s).1.countdownTimeLeft =
      initialDurationFor m (selectModeStep m s).1.customMinutes ∧
    (selectModeStep m s).1.initialCountdownDuration =
      initialDurationFor m (selectModeStep m s).1.customMinutes ∧
    (selectModeStep m s).1.stopwatchSeconds = 0 ∧
    (selectModeStep m s).1.prePauseStudySeconds = 0 := by
  have hfst : (selectModeStep m s).1 = settle s
      { s with mode := m, onBreak := false, timerRunning := false,
               stopwatchSeconds := 0, countdownTimeLeft := 0,
               initialCountdownDuration := 0, prePauseStudySeconds := 0 } := by
    simp [selectModeStep, selectMode]
  have hdep : effectDeps s ≠ effectDeps
      ({ s with mode := m, onBreak := false, timerRunning := false,
                stopwatchSeconds := 0, countdownTimeLeft := 0,
                initialCountdownDuration := 0,
                prePauseStudySeconds := 0 } : TimerState) := by
    rcases h with h | h <;> simp [effectDeps, h]
  have hfields := settle_reset_fields s _ hdep rfl rfl
  refine ⟨by simp [selectModeStep, selectMode], ?_, ?_, ?_, ?_, ?_, ?_⟩
  · rw [hfst]
    simp [phase, settle_onBreak, settle_timerRunning]
  · rw [hfst, settle_mode]
  · rw [hfst]
    exact hfields.1
  · rw [hfst]
    exact hfields.2.1
  · rw [hfst]
    exact hfields.2.2.1
  · rw [hfst]
    exact hfields.2.2.2.1

/-- C9, witness: switching a running mid-Pomodoro session to Stopwatch. -/
theorem selectMode_while_active_discards_and_reinitializes_witness :
    (selectModeStep Mode.stopwatch midRunPomodoro).2 = none ∧
    phase (selectModeStep Mode.stopwatch midRunPomodoro).1 = Phase.Idle ∧
    (selectModeStep Mode.stopwatch midRunPomodoro).1.mode = Mode.stopwatch ∧
    (selectModeStep Mode.stopwatch midRunPomodoro).1.countdownTimeLeft =
      initialDurationFor Mode.stopwatch
        (selectModeStep Mode.stopwatch midRunPomodoro).1.customMinutes ∧
    (selectModeStep Mode.stopwatch midRunPomodoro).1.initialCountdownDuration =
      initialDurationFor Mode.stopwatch
        (selectModeStep Mode.stopwatch midRunPomodoro).1.customMinutes ∧
    (selectModeStep Mode.stopwatch midRunPomodoro).1.stopwatchSeconds = 0 ∧
    (selectModeStep Mode.stopwatch midRunPomodoro).1.prePauseStudySeconds = 0 :=
  selectMode_while_active_discards_and_reinitializes midRunPomodoro Mode.stopwatch (Or.inl rfl)

/-- C8: in every mode, `start()` with an empty subject is rejected
synchronously with a configuration error; the state — in particular the
phase — is returned unchanged (no Session field is mutated). -/
theorem start_with_empty_subject_rejected (s : TimerState) (h : s.subject = "") :
    startStep s = (s, some ConfigError.noSubject) := by
  have h1 : handleStart s = (s, some ConfigError.noSubject) := by
    simp [handleStart, h]
  simp [startStep, h1, settle]

/-- C8, witness: an Idle Pomodoro state with no subject selected. -/
theorem start_with_empty_subject_rejected_witness :
    startStep ⟨Mode.pomodoro, 1500, 0, false, false, none, 0, "", 1500, 0, false⟩ =
      (⟨Mode.pomodoro, 1500, 0, false, false, none, 0, "", 1500, 0, false⟩,
       some ConfigError.noSubject) :=
  start_with_empty_subject_rejected _ rfl

/-- C10: for non-negative elapsed seconds, `handleSaveStudyTime`
dispatches a ledger write iff the subject is non-empty and at least 180
seconds elapsed (the rounded tenths-of-an-hour value is positive exactly
when `seconds ≥ 180`); shorter segments, and any segment with an empty
subject, are silently dropped. -/
theorem save_dispatches_iff_subject_and_180s (subject : String) (seconds : Int)
    (_hnn : 0 ≤ seconds) :
    (handleSaveStudyTime subject seconds).isSome = true ↔
      subject ≠ "" ∧ 180 ≤ seconds := by
  have hpos := roundedHoursTimes10_pos_iff seconds
  simp only [handleSaveStudyTime]
  split_ifs with hg
  · simp only [Option.isSome_none, Bool.false_eq_true, false_iff]
    rintro ⟨hs, h180⟩
    rcases hg with hg | hg
    · have := hpos.mpr h180
      omega
    · exact hs hg
  · simp only [Option.isSome_some, true_iff]
    push_neg at hg
    exact ⟨hg.2, hpos.mp (by omega)⟩

/-- C10, witness: at 180 seconds with a subject the write is
dispatched; the hypothesis `0 ≤ 180` is discharged concretely. -/
theorem save_dispatches_iff_subject_and_180s_witness :
    (handleSaveStudyTime "math" 180).isSome = true ↔ "math" ≠ "" ∧ (180:Int) ≤ 180 :=
  save_dispatches_iff_subject_and_180s "math" 180 (by decide)

/-- C6: the Persistence Bridge converts seconds to hours rounded to one
decimal — every dispatched write carries
`jsRound ((seconds : ℚ) / 3600 * 10)` tenths of an hour — and a rounded
result of zero (or less) is never committed; in particular a `stop()`
whose elapsed study time is zero (countdown untouched, stopwatch at 0)
issues no ledger write. -/
theorem commit_rounds_and_never_writes_zero (subject : String) (seconds : Int)
    (s : TimerState) :
    (∀ w, handleSaveStudyTime subject seconds = some w →
        w.hoursTimes10 = jsRound ((seconds : ℚ) / 3600 * 10) ∧ 0 < w.hoursTimes10) ∧
    (roundedHoursTimes10 seconds ≤ 0 → handleSaveStudyTime subject seconds = none) ∧
    (s.countdownTimeLeft = s.initialCountdownDuration → s.stopwatchSeconds = 0 →
        (stopStep s).2 = none) := by
  refine ⟨?_, ?_, ?_⟩
  · intro w hw
    simp only [handleSaveStudyTime] at hw
    split_ifs at hw with hg
    push_neg at hg
    cases hw
    constructor
    · exact roundedHoursTimes10_eq_jsRound seconds
    · show 0 < roundedHoursTimes10 seconds
      omega
  · intro hle
    simp [handleSaveStudyTime, hle]
  · intro h1 h2
    exact stopStep_write_none s (stopSecondsStudied_eq_zero s h1 h2)

/-- C6, witness: a full Pomodoro interval commits 0.4 h (4 tenths),
and stopping an untouched session writes nothing. -/
theorem commit_rounds_and_never_writes_zero_witness :
    ((handleSaveStudyTime "math" 1500 = some ⟨"math", 4⟩) ∧
      (4:Int) = jsRound ((1500 : ℚ) / 3600 * 10) ∧ (0:Int) < 4) ∧
    (stopStep ⟨Mode.pomodoro, 1500, 0, false, false, none, 0, "math", 1500, 0, false⟩).2
      = none := by
  have h := commit_rounds_and_never_writes_zero "math" 1500
    ⟨Mode.pomodoro, 1500, 0, false, false, none, 0, "math", 1500, 0, false⟩
  have hs : handleSaveStudyTime "math" 1500 = some ⟨"math", 4⟩ := by decide
  have hw := h.1 ⟨"math", 4⟩ hs
  exact ⟨⟨hs, hw.1, hw.2⟩, h.2.2 rfl rfl⟩

/-- A concrete mid-run Pomodoro session with 300 s elapsed (1200 of
1500 s remaining), used to compare `pause()` with `stop()`. -/
def midRunPomodoroEarly : TimerState :=
  ⟨Mode.pomodoro, 1200, 0, false, true, none, 0, "math", 1500, 0, false⟩

/-- C3, counterexample: in a Studying Pomodoro session with 300 s
elapsed, `pause()` does not behave like `stop()`: it schedules a
100-second break (floor(300/3)) and commits nothing, while `stop()` at
the same state commits 0.1 h and returns to Idle. The OnBreak phase is
not skipped. -/
theorem pause_in_pomodoro_is_not_stop :
    (pauseStep midRunPomodoroEarly).1.onBreak = true ∧
    (pauseStep midRunPomodoroEarly).1.breakTimeLeft = 100 ∧
    (pauseStep midRunPomodoroEarly).2 = none ∧
    (stopStep midRunPomodoroEarly).2 = some ⟨"math", 1⟩ ∧
    phase (stopStep midRunPomodoroEarly).1 = Phase.Idle := by decide

/-- C3 (amended): `handlePause` is mode-agnostic. In Pomodoro or
ReversePomodoro, a `pause()` from a Studying state with at least 3
elapsed seconds does not skip the break and does not commit: it enters
OnBreak with a break of a third of the elapsed time, so it is not
equivalent to `stop()`. (The UI renders the Pause button only in Custom
and Stopwatch modes, so these modes have no mid-session pause there.) -/
theorem pause_in_fixed_modes_enters_break (s : TimerState)
    (hrun : s.timerRunning = true) (hbr : s.onBreak = false)
    (hm : s.mode = Mode.pomodoro ∨ s.mode = Mode.reversePomodoro)
    (hel : 3 ≤ s.initialCountdownDuration - s.countdownTimeLeft) :
    (pauseStep s).1.onBreak = true ∧
    (pauseStep s).2 = none ∧
    (pauseStep s).1.breakTimeLeft =
      breakDurationOnPause (s.initialCountdownDuration - s.countdownTimeLeft) := by
  have hsw : s.mode ≠ Mode.stopwatch := by
    rcases hm with hm | hm <;> simp [hm]
  have hcs : currentSessionStudyTime { s with timerRunning := false } =
      s.initialCountdownDuration - s.countdownTimeLeft := by
    simp [currentSessionStudyTime, hsw]
  have hbd : 0 < breakDurationOnPause (s.initialCountdownDuration - s.countdownTimeLeft) := by
    unfold breakDurationOnPause
    rw [Int.fdiv_eq_ediv _ (by norm_num)]
    omega
  have hguard : ¬ (s.timerRunning = false ∨ s.onBreak = true) := by
    simp [hrun, hbr]
  simp only [pauseStep, handlePause, hguard, if_neg, hcs, if_pos hbd]
  rw [settle_of_active _ _ (Or.inr rfl)]
  simp

/-- C3, witness for `pause_in_fixed_modes_enters_break` at the concrete
session `midRunPomodoroEarly`. -/
theorem pause_in_fixed_modes_enters_break_witness :
    (pauseStep midRunPomodoroEarly).1.onBreak = true ∧
    (pauseStep midRunPomodoroEarly).2 = none ∧
    (pauseStep midRunPomodoroEarly).1.breakTimeLeft =
      breakDurationOnPause (midRunPomodoroEarly.initialCountdownDuration -
        midRunPomodoroEarly.countdownTimeLeft) :=
  pause_in_fixed_modes_enters_break midRunPomodoroEarly rfl rfl (Or.inl rfl) (by decide)

theorem tick_break_complete (s : TimerState) (hob : s.onBreak = true)
    (hbt : s.breakTimeLeft ≤ 1) :
    tick s =
      (if s.mode ≠ Mode.stopwatch ∧ nextStudyDurationFor s.mode s.customMinutes > 0 then
         { s with onBreak := false, prePauseStudySeconds := 0, stopwatchSeconds := 0,
                  breakTimeLeft := 0, restartPending := true,
                  countdownTimeLeft := nextStudyDurationFor s.mode s.customMinutes,
                  initialCountdownDuration := nextStudyDurationFor s.mode s.customMinutes }
       else
         { s with onBreak := false, prePauseStudySeconds := 0, stopwatchSeconds := 0,
                  breakTimeLeft := 0, restartPending := true },
       handleSaveStudyTime s.subject s.prePauseStudySeconds) := by
  simp only [tick, hob, hbt, if_true, if_pos]

/-- A concrete Stopwatch session on its last break second, with 300 s
of pre-break study credit pending. -/
def stopwatchBreakEnding : TimerState :=
  ⟨Mode.stopwatch, 0, 1, true, false, none, 0, "math", 0, 300, false⟩

/-- C2, counterexample: when a Stopwatch break reaches 0 the engine
does commit `preBreakStudySeconds` (0.1 h here), but it does not return
to Idle awaiting a manual `start()` — the unconditional
`setTimeout(() => setTimerRunning(true), 50)` re-arms the ticking loop,
so the stopwatch auto-restarts from 0 in the Studying phase. -/
theorem stopwatch_break_completion_autorestarts :
    (tickStep stopwatchBreakEnding).2 = some ⟨"math", 1⟩ ∧
    (tickStep stopwatchBreakEnding).1.timerRunning = true ∧
    phase (tickStep stopwatchBreakEnding).1 = Phase.Studying ∧
    (tickStep stopwatchBreakEnding).1.stopwatchSeconds = 0 := by decide

/-- C2 (amended): when a break interval reaches 0, the engine commits
`preBreakStudySeconds` and then auto-restarts in every mode — the
`setTimeout(() => setTimerRunning(true), 50)` is unconditional — so the
session re-enters the Studying phase: countdown modes re-arm a full
study interval, and Stopwatch restarts the stopwatch from 0 (with
`countdownTimeLeft` reset to 0) instead of returning to Idle to await a
manual `start()`. -/
theorem break_completion_commits_and_autorestarts (s : TimerState)
    (hob : s.onBreak = true) (hrun : s.timerRunning = false) (hbt : s.breakTimeLeft ≤ 1) :
    (tickStep s).2 = handleSaveStudyTime s.subject s.prePauseStudySeconds ∧
    (tickStep s).1.timerRunning = true ∧
    (tickStep s).1.onBreak = false ∧
    phase (tickStep s).1 = Phase.Studying ∧
    (tickStep s).1.stopwatchSeconds = 0 ∧
    (s.mode = Mode.stopwatch → (tickStep s).1.countdownTimeLeft = 0) := by
  have ht := tick_break_complete s hob hbt
  by_cases hc : s.mode ≠ Mode.stopwatch ∧ nextStudyDurationFor s.mode s.customMinutes > 0
  · rw [if_pos hc] at ht
    have hdep : effectDeps s ≠ effectDeps
        ({ s with onBreak := false, prePauseStudySeconds := 0, stopwatchSeconds := 0,
                  breakTimeLeft := 0, restartPending := true,
                  countdownTimeLeft := nextStudyDurationFor s.mode s.customMinutes,
                  initialCountdownDuration :=
                    nextStudyDurationFor s.mode s.customMinutes } : TimerState) := by
      simp [effectDeps, hob]
    have hfields := settle_reset_fields s _ hdep hrun rfl
    have hrp : (settle s
        { s with onBreak := false, prePauseStudySeconds := 0, stopwatchSeconds := 0,
                 breakTimeLeft := 0, restartPending := true,
                 countdownTimeLeft := nextStudyDurationFor s.mode s.customMinutes,
                 initialCountdownDuration :=
                   nextStudyDurationFor s.mode s.customMinutes }).restartPending = true := by
      rw [settle_restartPending]
    have hstep : tickStep s =
        ({ settle s
            { s with onBreak := false, prePauseStudySeconds := 0, stopwatchSeconds := 0,
                     breakTimeLeft := 0, restartPending := true,
                     countdownTimeLeft := nextStudyDurationFor s.mode s.customMinutes,
                     initialCountdownDuration :=
                       nextStudyDurationFor s.mode s.customMinutes } with
           restartPending := false, timerRunning := true },
         handleSaveStudyTime s.subject s.prePauseStudySeconds) := by
      simp only [tickStep, ht]
      rw [if_pos hrp, settle_of_active _ _ (Or.inl rfl)]
    rw [hstep]
    refine ⟨rfl, rfl, ?_, ?_, ?_, ?_⟩
    · show (settle s _).onBreak = false
      rw [settle_onBreak]
    · simp [phase, settle_onBreak]
    · show (settle s _).stopwatchSeconds = 0
      exact hfields.2.2.1
    · intro hsm
      exact absurd hsm hc.1
  · rw [if_neg hc] at ht
    have hdep : effectDeps s ≠ effectDeps
        ({ s with onBreak := false, prePauseStudySeconds := 0, stopwatchSeconds := 0,
                  breakTimeLeft := 0, restartPending := true } : TimerState) := by
      simp [effectDeps, hob]
    have hfields := settle_reset_fields s _ hdep hrun rfl
    have hrp : (settle s
        { s with onBreak := false, prePauseStudySeconds := 0, stopwatchSeconds := 0,
                 breakTimeLeft := 0, restartPending := true }).restartPending = true := by
      rw [settle_restartPending]
    have hstep : tickStep s =
        ({ settle s
            { s with onBreak := false, prePauseStudySeconds := 0, stopwatchSeconds := 0,
                     breakTimeLeft := 0, restartPending := true } with
           restartPending := false, timerRunning := true },
         handleSaveStudyTime s.subject s.prePauseStudySeconds) := by
      simp only [tickStep, ht]
      rw [if_pos hrp, settle_of_active _ _ (Or.inl rfl)]
    rw [hstep]
    refine ⟨rfl, rfl, ?_, ?_, ?_, ?_⟩
    · show (settle s _).onBreak = false
      rw [settle_onBreak]
    · simp [phase, settle_onBreak]
    · show (settle s _).stopwatchSeconds = 0
      exact hfields.2.2.1
    · intro hsm
      show (settle s _).countdownTimeLeft = 0
      rw [hfields.1]
      simp [initialDurationFor, hsm]

/-- C2, witness for `break_completion_commits_and_autorestarts` at the
concrete state `stopwatchBreakEnding`. -/
theorem break_completion_commits_and_autorestarts_witness :
    (tickStep stopwatchBreakEnding).2 =
      handleSaveStudyTime stopwatchBreakEnding.subject
        stopwatchBreakEnding.prePauseStudySeconds ∧
    (tickStep stopwatchBreakEnding).1.timerRunning = true ∧
    (tickStep stopwatchBreakEnding).1.onBreak = false ∧
    phase (tickStep stopwatchBreakEnding).1 = Phase.Studying ∧
    (tickStep stopwatchBreakEnding).1.stopwatchSeconds = 0 ∧
    (stopwatchBreakEnding.mode = Mode.stopwatch →
      (tickStep stopwatchBreakEnding).1.countdownTimeLeft = 0) :=
  break_completion_commits_and_autorestarts stopwatchBreakEnding rfl rfl (by decide)

theorem resetEffectOnce_breakTimeLeft (s : TimerState) :
    (resetEffectOnce s).breakTimeLeft = s.breakTimeLeft := by
  simp only [resetEffectOnce]
  split_ifs <;> rfl

theorem settle_breakTimeLeft (old new : TimerState) :
    (settle old new).breakTimeLeft = new.breakTimeLeft := by
  simp only [settle]
  split_ifs <;> simp [resetEffectOnce_breakTimeLeft]

theorem tickStep_eq (s : TimerState) :
    tickStep s =
      (if (settle s (tick s).1).restartPending then
        { settle s (tick s).1 with restartPending := false, timerRunning := true }
       else settle s (tick s).1,
       (tick s).2) := by
  rcases h : tick s with ⟨t, w⟩
  simp only [tickStep, h]
  split_ifs with hrp
  · rw [settle_of_active _ _ (Or.inl rfl)]
  · rfl

theorem tickStep_fst_countdown (s : TimerState) :
    (tickStep s).1.countdownTimeLeft = (settle s (tick s).1).countdownTimeLeft := by
  rw [tickStep_eq]
  split_ifs <;> rfl

theorem tickStep_fst_breakTimeLeft (s : TimerState) :
    (tickStep s).1.breakTimeLeft = (settle s (tick s).1).breakTimeLeft := by
  rw [tickStep_eq]
  split_ifs <;> rfl

theorem tickStep_fst_onBreak (s : TimerState) :
    (tickStep s).1.onBreak = (settle s (tick s).1).onBreak := by
  rw [tickStep_eq]
  split_ifs <;> rfl

theorem tickStep_snd (s : TimerState) : (tickStep s).2 = (tick s).2 := by
  rw [tickStep_eq]

theorem settle_of_deps_eq (old new : TimerState)
    (h : effectDeps old = effectDeps new) : settle old new = new := by
  simp [settle, h]

theorem tick_countdown_decrement (s : TimerState) (hm : s.mode ≠ Mode.stopwatch)
    (hrun : s.timerRunning = true) (hob : s.onBreak = false)
    (hcd : 1 < s.countdownTimeLeft) :
    (tickStep s).1.countdownTimeLeft = s.countdownTimeLeft - 1 ∧
    (tickStep s).2 = none ∧
    (tickStep s).1.timerRunning = true := by
  have hle : ¬ s.countdownTimeLeft ≤ 1 := by omega
  have ht : tick s = ({ s with countdownTimeLeft := s.countdownTimeLeft - 1 }, none) := by
    simp [tick, hob, hrun, hm, hle]
  have hset : settle s { s with countdownTimeLeft := s.countdownTimeLeft - 1 } =
      { s with countdownTimeLeft := s.countdownTimeLeft - 1 } :=
    settle_of_deps_eq _ _ rfl
  refine ⟨?_, ?_, ?_⟩
  · rw [tickStep_fst_countdown]
    simp only [ht]
    rw [hset]
  · rw [tickStep_snd, ht]
  · rw [tickStep_eq]
    split_ifs
    · rfl
    · rw [settle_timerRunning, ht]
      exact hrun

theorem tick_countdown_complete_to_break (s : TimerState) (hm : s.mode ≠ Mode.stopwatch)
    (hrun : s.timerRunning = true) (hob : s.onBreak = false)
    (hcd : s.countdownTimeLeft ≤ 1)
    (hbd : 0 < breakDurationOnCompletion s.mode s.initialCountdownDuration) :
    (tickStep s).1.countdownTimeLeft = 0 ∧
    (tickStep s).1.onBreak = true ∧
    (tickStep s).2 = none := by
  have ht : tick s = ({ s with timerRunning := false,
                               breakTimeLeft :=
                                 breakDurationOnCompletion s.mode s.initialCountdownDuration,
                               onBreak := true,
                               prePauseStudySeconds := s.initialCountdownDuration,
                               countdownTimeLeft := 0 }, none) := by
    simp [tick, hob, hrun, hm, hcd, hbd]
  have hsettle : settle s (tick s).1 = (tick s).1 := by
    rw [ht]
    exact settle_of_active _ _ (Or.inr rfl)
  refine ⟨?_, ?_, ?_⟩
  · rw [tickStep_fst_countdown, hsettle, ht]
  · rw [tickStep_fst_onBreak, hsettle, ht]
  · rw [tickStep_snd, ht]

theorem tick_break_decrement (s : TimerState) (hob : s.onBreak = true)
    (hbt : 1 < s.breakTimeLeft) :
    (tickStep s).1.breakTimeLeft = s.breakTimeLeft - 1 ∧ (tickStep s).2 = none := by
  have hle : ¬ s.breakTimeLeft ≤ 1 := by omega
  have ht : tick s = ({ s with breakTimeLeft := s.breakTimeLeft - 1 }, none) := by
    simp [tick, hob, hle]
  have hset : settle s { s with breakTimeLeft := s.breakTimeLeft - 1 } =
      { s with breakTimeLeft := s.breakTimeLeft - 1 } :=
    settle_of_deps_eq _ _ rfl
  constructor
  · rw [tickStep_fst_breakTimeLeft]
    simp only [ht]
    rw [hset]
  · rw [tickStep_snd, ht]

theorem tick_break_complete_zeroes (s : TimerState) (hob : s.onBreak = true)
    (hbt : s.breakTimeLeft ≤ 1) :
    (tickStep s).1.breakTimeLeft = 0 := by
  have ht := tick_break_complete s hob hbt
  rw [tickStep_fst_breakTimeLeft, ht, settle_breakTimeLeft]
  split_ifs <;> rfl

theorem tickStep_countdown_nonneg (s : TimerState) (hm : s.mode ≠ Mode.stopwatch)
    (hrun : s.timerRunning = true) (hob : s.onBreak = false)
    (_hcd : 0 ≤ s.countdownTimeLeft) : 0 ≤ (tickStep s).1.countdownTimeLeft := by
  by_cases hle : s.countdownTimeLeft ≤ 1
  · by_cases hbd : 0 < breakDurationOnCompletion s.mode s.initialCountdownDuration
    · obtain ⟨h1, -, -⟩ := tick_countdown_complete_to_break s hm hrun hob hle hbd
      omega
    · push_neg at hbd
      have ht : tick s = ({ s with timerRunning := false, stopwatchSeconds := 0,
                                   countdownTimeLeft :=
                                     nextStudyDurationFor s.mode s.customMinutes,
                                   initialCountdownDuration :=
                                     nextStudyDurationFor s.mode s.customMinutes,
                                   prePauseStudySeconds := 0, onBreak := false },
          handleSaveStudyTime s.subject s.initialCountdownDuration) := by
        simp [tick, hob, hrun, hm, hle, not_lt.mpr hbd]
      rw [tickStep_fst_countdown]
      simp only [ht]
      refine (settle_reset_fields s _ ?_ rfl rfl).2.2.2.2
      simp [effectDeps, hrun]
  · obtain ⟨h1, -, -⟩ := tick_countdown_decrement s hm hrun hob (by omega)
    omega

/-- C5: per-tick countdown policy. In a Studying countdown session a
tick with more than one second left decrements `countdownTimeLeft` by
exactly 1 (no commit, still running); a tick that reads the counter as
at most 1 treats the interval as complete and leaves the counter at
exactly 0 (entering the scheduled break); the break counter behaves the
same way; and the study counter never becomes negative. -/
theorem countdown_and_break_tick_policy (s : TimerState) :
    (s.mode ≠ Mode.stopwatch → s.timerRunning = true → s.onBreak = false →
        1 < s.countdownTimeLeft →
        (tickStep s).1.countdownTimeLeft = s.countdownTimeLeft - 1 ∧
        (tickStep s).2 = none ∧ (tickStep s).1.timerRunning = true) ∧
    (s.mode ≠ Mode.stopwatch → s.timerRunning = true → s.onBreak = false →
        s.countdownTimeLeft ≤ 1 →
        0 < breakDurationOnCompletion s.mode s.initialCountdownDuration →
        (tickStep s).1.countdownTimeLeft = 0 ∧ (tickStep s).1.onBreak = true) ∧
    (s.onBreak = true → 1 < s.breakTimeLeft →
        (tickStep s).1.breakTimeLeft = s.breakTimeLeft - 1 ∧ (tickStep s).2 = none) ∧
    (s.onBreak = true → s.breakTimeLeft ≤ 1 → (tickStep s).1.breakTimeLeft = 0) ∧
    (s.mode ≠ Mode.stopwatch → s.timerRunning = true → s.onBreak = false →
        0 ≤ s.countdownTimeLeft → 0 ≤ (tickStep s).1.countdownTimeLeft) :=
  ⟨fun hm hr ho hc => tick_countdown_decrement s hm hr ho hc,
   fun hm hr ho hc hb => ⟨(tick_countdown_complete_to_break s hm hr ho hc hb).1,
                          (tick_countdown_complete_to_break s hm hr ho hc hb).2.1⟩,
   fun ho hb => tick_break_decrement s ho hb,
   fun ho hb => tick_break_complete_zeroes s ho hb,
   fun hm hr ho hc => tickStep_countdown_nonneg s hm hr ho hc⟩

/-- C5, witness: one decrement tick of a running Pomodoro with 5 s
left. -/
theorem countdown_and_break_tick_policy_witness :
    (tickStep ⟨Mode.pomodoro, 5, 0, false, true, none, 0, "math", 1500, 0,
        false⟩).1.countdownTimeLeft = 5 - 1 ∧
    (tickStep ⟨Mode.pomodoro, 5, 0, false, true, none, 0, "math", 1500, 0, false⟩).2 = none ∧
    (tickStep ⟨Mode.pomodoro, 5, 0, false, true, none, 0, "math", 1500, 0,
        false⟩).1.timerRunning = true :=
  (countdown_and_break_tick_policy
    ⟨Mode.pomodoro, 5, 0, false, true, none, 0, "math", 1500, 0, false⟩).1
    (by decide) rfl rfl (by decide)

/-- C7: the break computation. On study-interval completion the break
is 300 s for Pomodoro and 1500 s for ReversePomodoro regardless of the
study time, and `⌊x/3⌋` for Custom; `handlePause` (the only source of
Stopwatch and pause-time breaks) computes `⌊x/3⌋` in every mode. When
the computed break is not positive, the OnBreak phase is skipped
entirely: the engine invokes the Persistence Bridge and returns
directly to Idle, both on pause and on countdown completion. -/
theorem computeBreak_policy (x : Int) (s : TimerState) :
    breakDurationOnCompletion Mode.pomodoro x = 300 ∧
    breakDurationOnCompletion Mode.reversePomodoro x = 1500 ∧
    breakDurationOnCompletion Mode.custom x = x.fdiv 3 ∧
    breakDurationOnCompletion Mode.custom 300 = 100 ∧
    breakDurationOnPause x = x.fdiv 3 ∧
    (s.timerRunning = true → s.onBreak = false →
        breakDurationOnPause (currentSessionStudyTime s) ≤ 0 →
        phase (pauseStep s).1 = Phase.Idle ∧
        (pauseStep s).2 = handleSaveStudyTime s.subject (currentSessionStudyTime s)) ∧
    (s.mode ≠ Mode.stopwatch → s.timerRunning = true → s.onBreak = false →
        s.restartPending = false → s.countdownTimeLeft ≤ 1 →
        breakDurationOnCompletion s.mode s.initialCountdownDuration ≤ 0 →
        phase (tickStep s).1 = Phase.Idle ∧
        (tickStep s).2 = handleSaveStudyTime s.subject s.initialCountdownDuration) := by
  refine ⟨rfl, rfl, rfl, by decide, rfl, ?_, ?_⟩
  · intro hrun hob hbd
    have hguard : ¬ (s.timerRunning = false ∨ s.onBreak = true) := by
      simp [hrun, hob]
    have hcur : currentSessionStudyTime { s with timerRunning := false } =
        currentSessionStudyTime s := rfl
    have hnotpos : ¬ (breakDurationOnPause
        (currentSessionStudyTime { s with timerRunning := false }) > 0) := by
      rw [hcur]
      exact not_lt.mpr hbd
    have hp : handlePause s = ({ s with timerRunning := false, countdownTimeLeft := 0,
                                        stopwatchSeconds := 0, prePauseStudySeconds := 0,
                                        onBreak := false },
        handleSaveStudyTime s.subject (currentSessionStudyTime s)) := by
      simp only [handlePause]
      rw [if_neg hguard, if_neg hnotpos, hcur]
    constructor
    · simp only [pauseStep, hp]
      simp [phase, settle_onBreak, settle_timerRunning]
    · simp only [pauseStep, hp]
  · intro hm hrun hob hrp hle hbd
    have ht : tick s = ({ s with timerRunning := false, stopwatchSeconds := 0,
                                 countdownTimeLeft :=
                                   nextStudyDurationFor s.mode s.customMinutes,
                                 initialCountdownDuration :=
                                   nextStudyDurationFor s.mode s.customMinutes,
                                 prePauseStudySeconds := 0, onBreak := false },
        handleSaveStudyTime s.subject s.initialCountdownDuration) := by
      simp [tick, hob, hrun, hm, hle, not_lt.mpr hbd]
    constructor
    · rw [tickStep_eq]
      have hrb : (settle s (tick s).1).restartPending = false := by
        rw [settle_restartPending]
        simp only [ht]
        exact hrp
      rw [if_neg (by rw [hrb]; simp)]
      simp [phase, settle_onBreak, settle_timerRunning, ht]
    · rw [tickStep_snd]
      simp only [ht]

/-- C7, witness: a running Stopwatch paused after 2 s computes a break
of `⌊2/3⌋ = 0` and so skips OnBreak, invoking the bridge (which drops
the sub-threshold 2 s) and returning to Idle. -/
theorem computeBreak_policy_witness :
    breakDurationOnCompletion Mode.pomodoro 7 = 300 ∧
    breakDurationOnCompletion Mode.custom 300 = 100 ∧
    (phase (pauseStep ⟨Mode.stopwatch, 0, 0, false, true, none, 2, "math", 0, 0,
        false⟩).1 = Phase.Idle ∧
     (pauseStep ⟨Mode.stopwatch, 0, 0, false, true, none, 2, "math", 0, 0, false⟩).2 =
       handleSaveStudyTime "math"
         (currentSessionStudyTime
           ⟨Mode.stopwatch, 0, 0, false, true, none, 2, "math", 0, 0, false⟩)) :=
  ⟨(computeBreak_policy 7 ⟨Mode.stopwatch, 0, 0, false, true, none, 2, "math", 0, 0,
      false⟩).1,
   (computeBreak_policy 7 ⟨Mode.stopwatch, 0, 0, false, true, none, 2, "math", 0, 0,
      false⟩).2.2.2.1,
   (computeBreak_policy 7 ⟨Mode.stopwatch, 0, 0, false, true, none, 2, "math", 0, 0,
      false⟩).2.2.2.2.2.1 rfl rfl (by decide)⟩

theorem runTicks_add (m n : Nat) (s : TimerState) :
    runTicks (m + n) s =
      ((runTicks n (runTicks m s).1).1,
       (runTicks m s).2 ++ (runTicks n (runTicks m s).1).2) := by
  induction m generalizing s with
  | zero =>
      simp [runTicks]
  | succ k ih =>
      rw [Nat.succ_add]
      rcases h : tickStep s with ⟨s1, w⟩
      simp only [runTicks, h, ih s1]
      simp

/-- A freshly started Pomodoro session on subject "math": 1500 s
target, 1500 s remaining, ticking. -/
def pomodoroSession : TimerState :=
  ⟨Mode.pomodoro, 1500, 0, false, true, none, 0, "math", 1500, 0, false⟩

/-- The session 600 ticks in. -/
def pomodoroSessionAfter600 : TimerState :=
  ⟨Mode.pomodoro, 900, 0, false, true, none, 0, "math", 1500, 0, false⟩

/-- The session 1200 ticks in. -/
def pomodoroSessionAfter1200 : TimerState :=
  ⟨Mode.pomodoro, 300, 0, false, true, none, 0, "math", 1500, 0, false⟩

set_option maxRecDepth 40000 in
theorem runTicks_pomodoro_chunk1 :
    runTicks 600 pomodoroSession = (pomodoroSessionAfter600, []) := by decide

set_option maxRecDepth 40000 in
theorem runTicks_pomodoro_chunk2 :
    runTicks 600 pomodoroSessionAfter600 = (pomodoroSessionAfter1200, []) := by decide

set_option maxRecDepth 40000 in
theorem runTicks_pomodoro_chunk3 :
    runTicks 600 pomodoroSessionAfter1200 = (pomodoroSession, [⟨"math", 4⟩]) := by decide

theorem tickStep_fst_initial (s : TimerState) :
    (tickStep s).1.initialCountdownDuration =
      (settle s (tick s).1).initialCountdownDuration := by
  rw [tickStep_eq]
  split_ifs <;> rfl

theorem tickStep_fst_stopwatch (s : TimerState) :
    (tickStep s).1.stopwatchSeconds = (settle s (tick s).1).stopwatchSeconds := by
  rw [tickStep_eq]
  split_ifs <;> rfl

theorem stop_after_break_completion_writes_nothing (s : TimerState)
    (hob : s.onBreak = true) (hrun : s.timerRunning = false)
    (hbt : s.breakTimeLeft ≤ 1) :
    (stopStep (tickStep s).1).2 = none := by
  have ht := tick_break_complete s hob hbt
  have h1 : (tick s).1.timerRunning = false := by
    simp only [ht]
    split_ifs <;> exact hrun
  have h2 : (tick s).1.onBreak = false := by
    simp only [ht]
    split_ifs <;> rfl
  have hdep : effectDeps s ≠ effectDeps (tick s).1 := by
    simp only [ht]
    split_ifs <;> simp [effectDeps, hob]
  have hfields := settle_reset_fields s _ hdep h1 h2
  apply stopStep_write_none
  apply stopSecondsStudied_eq_zero
  · rw [tickStep_fst_countdown, tickStep_fst_initial]
    exact hfields.1.trans hfields.2.1.symm
  · rw [tickStep_fst_stopwatch]
    exact hfields.2.2.1

/-- C4: a full Pomodoro cycle — 1500 study ticks that complete the
interval, followed by the full 300-second break ticking to 0 — produces
exactly one ledger commit over the whole 1800-tick trace, of 4 tenths
of an hour (0.4 = round(1500/3600, 1), the `jsRound` of the spec's
formula), and a manual `stop()` immediately after that cycle commits
nothing more. Moreover, in every mode and from every on-break state, a
completed study segment is committed at most once: the break-completion
tick is followed by the reset effect, which re-arms a fresh interval
(`countdownTimeLeft = initialCountdownDuration`, stopwatch at 0), so a
manual `stop()` right after any break completion dispatches no second
write (no double credit from break completion plus manual stop). -/
theorem full_pomodoro_cycle_commits_exactly_once :
    (runTicks 1800 pomodoroSession).2 = [⟨"math", 4⟩] ∧
    (4 : Int) = jsRound ((1500 : ℚ) / 3600 * 10) ∧
    (stopStep (runTicks 1800 pomodoroSession).1).2 = none ∧
    (∀ s : TimerState, s.onBreak = true → s.timerRunning = false →
        s.breakTimeLeft ≤ 1 → (stopStep (tickStep s).1).2 = none) := by
  have h1800 : runTicks 1800 pomodoroSession = (pomodoroSession, [⟨"math", 4⟩]) := by
    have e1 : (1800 : Nat) = 600 + (600 + 600) := by norm_num
    rw [e1, runTicks_add, runTicks_pomodoro_chunk1]
    dsimp only
    rw [runTicks_add, runTicks_pomodoro_chunk2]
    dsimp only
    rw [runTicks_pomodoro_chunk3]
    simp
  refine ⟨by rw [h1800], ?_, ?_, ?_⟩
  · have hc : ((1500 : Int) : ℚ) = (1500 : ℚ) := by norm_num
    calc (4 : Int) = jsRound (((1500 : Int) : ℚ) / 3600 * 10) := by
          rw [← roundedHoursTimes10_eq_jsRound]
          decide
    _ = jsRound ((1500 : ℚ) / 3600 * 10) := by rw [hc]
  · rw [h1800]
    decide
  · exact fun s hob hrun hbt => stop_after_break_completion_writes_nothing s hob hrun hbt

/-- C4, witness: the universal no-double-credit clause applied at a
concrete Pomodoro session on its last break second — the stop() issued
right after the break-completion tick writes nothing — together with
the trace clause itself. -/
theorem full_pomodoro_cycle_commits_exactly_once_witness :
    (stopStep (tickStep ⟨Mode.pomodoro, 0, 1, true, false, none, 0, "math", 1500, 1500,
        false⟩).1).2 = none ∧
    (runTicks 1800 pomodoroSession).2 = [⟨"math", 4⟩] :=
  ⟨full_pomodoro_cycle_commits_exactly_once.2.2.2
     ⟨Mode.pomodoro, 0, 1, true, false, none, 0, "math", 1500, 1500, false⟩
     rfl rfl (by decide),
   full_pomodoro_cycle_commits_exactly_once.1⟩
